import Mathlib

/-
Verification of the parslbox job store and run orchestrator.

The definitions below are a shallow embedding of the Python sources:
  helpers/database.py   (jobs table, add_job, get_jobs, update_jobs)
  apps/app_registry.py  (plugin registry lookup)
  commands/add.py       (the add command body)
  commands/run.py       (the run orchestrator: fetch, filter, group, submit,
                         await, reconcile)
Machine-level effects (sqlite connections, the filesystem, Parsl futures) are
modelled as explicit state passing: every database helper takes the current
table contents and returns the resulting contents together with the Python
return value or the exception the call raises.
-/

set_option maxHeartbeats 1000000

namespace Parslbox

/-- Python str.capitalize as used by database.py: the first character is
uppercased and every following character is lowercased. -/
def pyCapitalize (s : String) : String :=
  match s.data with
  | [] => ""
  | c :: cs => String.mk (c.toUpper :: cs.map Char.toLower)

/-- Truthiness of a Python Optional[str]: None and the empty string are falsy. -/
def pyTruthy : Option String → Bool
  | none => false
  | some s => s != ""

/-- One row of the jobs table as created by CREATE_TABLE_SQL in
helpers/database.py: job_id INTEGER PRIMARY KEY, app TEXT, path TEXT UNIQUE,
status TEXT, ngpus INTEGER, sched_job_id TEXT NULL, tag TEXT NULL,
timestamp DATETIME (refreshed by the AFTER UPDATE trigger, modelled as a
logical clock value). -/
structure Row where
  job_id : Nat
  app : String
  path : String
  status : String
  ngpus : Int
  sched_job_id : Option String
  tag : Option String
  timestamp : Nat
deriving Repr, DecidableEq

/-- Column names a SELECT * on the jobs table yields, i.e. the keys of the row
dictionaries run.py receives from database.get_jobs. -/
def rowColumns : List String :=
  ["job_id", "app", "path", "status", "ngpus", "sched_job_id", "tag", "timestamp"]

/-- Outcome of one database helper call: the Python return value or the
exception the call raises, the table contents afterwards, and whether the call
reached sqlite3.connect (i.e. touched the database at all). -/
structure DbOutcome (α : Type) where
  result : Except String α
  rows : List Row
  dbAccessed : Bool
deriving Repr

/-- helpers/database.py update_jobs. Fields passed as None are left untouched.
An empty job_ids list returns 0 before anything else happens; if no SET clause
was assembled the function also returns 0 without connecting. The branch for
sched_job_id appends status.capitalize() to the parameter list (line 189 of
database.py), so it stores the capitalized status value and raises
AttributeError when status is None. On a performed UPDATE the AFTER UPDATE
trigger refreshes the timestamp of every updated row.

Application of the assembled SET clauses of update_jobs to one row whose
job_id is in the WHERE set; the AFTER UPDATE trigger also refreshes the
timestamp. The sched_job_id clause stores the capitalized status value,
exactly as assembled at line 189 of database.py. -/
def updRow (job_ids : List Nat) (status sched_job_id app tag : Option String)
    (ngpus : Option Int) (now : Nat) (r : Row) : Row :=
  if job_ids.contains r.job_id then
    { r with
      status := (status.map pyCapitalize).getD r.status
      app := app.getD r.app
      tag := if tag.isSome then tag else r.tag
      ngpus := ngpus.getD r.ngpus
      sched_job_id :=
        if sched_job_id.isSome then status.map pyCapitalize
        else r.sched_job_id
      timestamp := now }
  else r

def update_jobs (rows : List Row) (job_ids : List Nat)
    (status sched_job_id app tag : Option String)
    (ngpus : Option Int) (now : Nat) : DbOutcome Nat :=
  if job_ids.isEmpty then
    ⟨.ok 0, rows, false⟩
  else if sched_job_id.isSome && status.isNone then
    ⟨.error "AttributeError: NoneType object has no attribute capitalize",
     rows, false⟩
  else if status.isNone && app.isNone && tag.isNone && ngpus.isNone &&
      sched_job_id.isNone then
    ⟨.ok 0, rows, false⟩
  else
    ⟨.ok (rows.countP (fun r => job_ids.contains r.job_id)),
     rows.map (updRow job_ids status sched_job_id app tag ngpus now), true⟩

/-- helpers/database.py add_job: INSERT INTO jobs (path, app, tag, status,
ngpus). The path column is UNIQUE, so inserting an already present path raises
sqlite3.IntegrityError and leaves the table unchanged; otherwise the new row
receives the next rowid and the function returns cur.lastrowid. -/
def add_job (rows : List Row) (path app : String) (ngpus : Int)
    (tag : Option String) (status : String) (now : Nat) : DbOutcome Nat :=
  if rows.any (fun r => r.path == path) then
    ⟨.error "sqlite3.IntegrityError: UNIQUE constraint failed: jobs.path",
     rows, true⟩
  else
    let new_id := (rows.foldl (fun m r => max m r.job_id) 0) + 1
    ⟨.ok new_id,
     rows ++ [⟨new_id, app, path, status, ngpus, none, tag, now⟩], true⟩

/-- The status condition of get_jobs: added only when the filter is truthy,
and the filter value is capitalized before the comparison. -/
def statusCond (status : Option String) (r : Row) : Bool :=
  match status with
  | some s => if s != "" then r.status == pyCapitalize s else true
  | none => true

/-- The app condition of get_jobs: added only when the filter is truthy. -/
def appCond (app : Option String) (r : Row) : Bool :=
  match app with
  | some a => if a != "" then r.app == a else true
  | none => true

/-- The tag condition of get_jobs: added only when the filter is truthy; a
NULL tag column never satisfies the SQL equality tag = ?. -/
def tagCond (tag : Option String) (r : Row) : Bool :=
  match tag with
  | some t =>
    if t != "" then
      match r.tag with
      | some rt => rt == t
      | none => false
    else true
  | none => true

/-- The WHERE clause assembled by helpers/database.py get_jobs: one condition
per truthy filter, AND-combined. -/
def jobMatches (status app tag : Option String) (r : Row) : Bool :=
  statusCond status r && appCond app r && tagCond tag r

/-- The order used by ORDER BY job_id ASC. -/
def rowLe (a b : Row) : Prop := a.job_id ≤ b.job_id

instance : DecidableRel rowLe := fun a b => Nat.decLe a.job_id b.job_id

instance : IsTotal Row rowLe := ⟨fun a b => Nat.le_total a.job_id b.job_id⟩

instance : IsTrans Row rowLe := ⟨fun _ _ _ h h2 => Nat.le_trans h h2⟩

/-- helpers/database.py get_jobs: SELECT * FROM jobs with the assembled WHERE
clause, ORDER BY job_id ASC. -/
def get_jobs (rows : List Row) (status app tag : Option String) : List Row :=
  (rows.filter (jobMatches status app tag)).insertionSort rowLe

/-- Status of the row with the given job id, if present. -/
def jobStatus (rows : List Row) (jid : Nat) : Option String :=
  (rows.find? (fun r => r.job_id == jid)).map Row.status

/-- Keys of APP_FACTORY in apps/app_registry.py. -/
def registeredApps : List String := ["lammps", "vasp", "python"]

/-- apps/app_registry.py get_app_class (used by get_app_instance): raises
ValueError for an unregistered name, with the list of valid names in the
message. -/
def get_app_class (a : String) : Except String Unit :=
  if registeredApps.contains a then .ok ()
  else
    .error ("ValueError: Unknown application: " ++ a ++
      ". Available applications are: lammps, vasp, python")

/-- Parameter names of helpers/database.py add_job (line 53). -/
def add_job_param_names : List String :=
  ["db_path", "path", "app", "ngpus", "tag", "status"]

/-- Keyword arguments of the database.add_job call in commands/add.py
(lines 119 to 128). -/
def add_command_kwargs : List String :=
  ["db_path", "path", "app", "ngpus", "tag", "in_file", "mpi_opts", "status"]

/-- Python keyword binding: a keyword call binds iff every supplied keyword
names a parameter of the callee; otherwise the call raises TypeError before
the callee body runs. -/
def kwargsBind (ps kw : List String) : Bool := kw.all (fun k => ps.contains k)

/-- Body of the add command for one path (add.py lines 117 to 134): the
database.add_job call raises TypeError when its keywords do not bind to
add_job parameters, before any row is inserted; the surrounding handler
catches only sqlite3.IntegrityError, so the TypeError escapes. -/
def add_command_one (rows : List Row) (path appName : String) (ngpus : Int)
    (tag : Option String) (status : String) (now : Nat) : DbOutcome Nat :=
  if kwargsBind add_job_param_names add_command_kwargs then
    add_job rows path appName ngpus tag status now
  else
    ⟨.error "TypeError: add_job() got an unexpected keyword argument in_file",
     rows, false⟩

/-- Observable orchestrator actions during one run pass of commands/run.py. -/
inductive Event
  | preprocessed (j : Nat)
  | submitted (j : Nat)
  | executed (j : Nat)
  | checkedSuccess (j : Nat)
  | postprocessed (j : Nat)
deriving Repr, DecidableEq

/-- Behaviour of the plugin calls and ambient environment run.py invokes:
the outcome of app_instance.preprocess per (app, job id), the outcome of
awaiting each retained future, the value app_instance.check_success returns
per job id, whether load_app_config succeeds per app, the scheduler string
load_config returned, and the PBS_JOBID value (environment variable or the
synthesized local fallback). -/
structure RunEnv where
  preprocess : String → Nat → Except String Unit
  futureResult : Nat → Except String Unit
  check_success : Nat → Option String
  configOk : String → Bool
  scheduler : String
  pbsJobId : String

/-- State threaded through the submission phase of a run pass: the table
contents, the log of observable actions, and the job ids whose futures were
retained, in submission order. -/
structure SubmitState where
  rows : List Row
  events : List Event
  futures : List Nat
deriving Repr

/-- Body of the inner submission loop of run.py (lines 139 to 173) for one
job: run preprocess, mark the job Submitted, on a PBS scheduler record the
sched_job_id (an update_jobs call that raises AttributeError, see above),
read in_file and mpi_opts out of the row dictionary (keys a SELECT * on the
jobs table does not produce, so the access raises KeyError), then call
parsl_app and retain the future. No handler surrounds the loop, so an
exception aborts the whole pass with the state reached so far. -/
def submit_one (env : RunEnv) (st : SubmitState) (j : Row) (now : Nat) :
    Except (String × SubmitState) SubmitState :=
  match env.preprocess j.app j.job_id with
  | .error e => .error (e, st)
  | .ok _ =>
    let st1 : SubmitState :=
      { st with events := st.events ++ [Event.preprocessed j.job_id] }
    let o1 := update_jobs st1.rows [j.job_id] (some "Submitted")
      none none none none now
    let st2 : SubmitState :=
      { st1 with rows := o1.rows
                 events := st1.events ++ [Event.submitted j.job_id] }
    let o2 := if env.scheduler == "PBS" then
        update_jobs st2.rows [j.job_id] none (some env.pbsJobId)
          none none none now
      else ⟨.ok 0, st2.rows, false⟩
    match o2.result with
    | .error e => .error (e, st2)
    | .ok _ =>
      let st3 : SubmitState := { st2 with rows := o2.rows }
      if rowColumns.contains "in_file" then
        if rowColumns.contains "mpi_opts" then
          .ok { st3 with events := st3.events ++ [Event.executed j.job_id]
                         futures := st3.futures ++ [j.job_id] }
        else .error ("KeyError: mpi_opts", st3)
      else .error ("KeyError: in_file", st3)

/-- The submission loop over one application group's job list. -/
def submitGroup (env : RunEnv) (st : SubmitState) (jobs : List Row)
    (now : Nat) : Except (String × SubmitState) SubmitState :=
  match jobs with
  | [] => .ok st
  | j :: rest =>
    match submit_one env st j now with
    | .error e => .error e
    | .ok st1 => submitGroup env st1 rest now

/-- One iteration of the per-application loop of run.py (lines 108 to 173):
resolve the plugin class (a ValueError marks every job of the group Failed and
continues with the next group), load the app configuration (a
FileNotFoundError likewise), then run the submission loop for the group. -/
def processGroup (env : RunEnv) (st : SubmitState) (a : String)
    (jobs : List Row) (now : Nat) :
    Except (String × SubmitState) SubmitState :=
  match get_app_class a with
  | .error _ =>
    let o := update_jobs st.rows (jobs.map Row.job_id) (some "Failed")
      none none none none now
    .ok { st with rows := o.rows }
  | .ok _ =>
    if env.configOk a then
      submitGroup env st jobs now
    else
      let o := update_jobs st.rows (jobs.map Row.job_id) (some "Failed")
        none none none none now
      .ok { st with rows := o.rows }

/-- Jobs of one application group, in fetch order (Python dict grouping keeps
the encounter order of the jobs). -/
def groupOf (jobs : List Row) (a : String) : List Row :=
  jobs.filter (fun j => j.app == a)

/-- One step of collecting group keys: a new application name is appended the
first time it is seen (Python dict key insertion order). -/
def groupStep (acc : List String) (j : Row) : List String :=
  if acc.contains j.app then acc else acc ++ [j.app]

/-- Application names in order of first appearance (Python dict key order). -/
def groupKeys (jobs : List Row) : List String :=
  jobs.foldl groupStep []

/-- The per-application loop over all groups; an exception escaping one
group's submission loop aborts the remaining groups as well. -/
def processGroups (env : RunEnv) (st : SubmitState) (keys : List String)
    (jobs : List Row) (now : Nat) :
    Except (String × SubmitState) SubmitState :=
  match keys with
  | [] => .ok st
  | a :: ks =>
    match processGroup env st a (groupOf jobs a) now with
    | .error e => .error e
    | .ok st1 => processGroups env st1 ks jobs now

/-- Step-2 fetch and filter of run.py (lines 78 to 94): jobs with status
Ready, then jobs with status Restart, kept when they pass the optional app
and tag set filters (a job with a NULL tag never passes a tag filter). -/
def fetchFiltered (rows : List Row)
    (appFilter tagFilter : Option (List String)) : List Row :=
  let runnable := get_jobs rows (some "Ready") none none ++
    get_jobs rows (some "Restart") none none
  runnable.filter (fun j =>
    (match appFilter with
     | none => true
     | some fs => fs.contains j.app) &&
    (match tagFilter with
     | none => true
     | some fs =>
       match j.tag with
       | some t => fs.contains t
       | none => false))

/-- Step-5 body of run.py (lines 178 to 203) for one retained future. The
normal path (the future resolves) and the exception path (awaiting it raises)
run the same logic: call check_success; when the returned value is truthy and
not the string Failed, persist it and run postprocess; when it equals Failed,
persist Failed and skip postprocess; otherwise do nothing further. -/
def reconcile_one (env : RunEnv) (rows : List Row) (jid : Nat) (now : Nat) :
    List Row × List Event :=
  match env.futureResult jid with
  | .ok _ =>
    let js := env.check_success jid
    if pyTruthy js && js != some "Failed" then
      match js with
      | some v =>
        ((update_jobs rows [jid] (some v) none none none none now).rows,
         [Event.checkedSuccess jid, Event.postprocessed jid])
      | none => (rows, [Event.checkedSuccess jid])
    else if js == some "Failed" then
      ((update_jobs rows [jid] (some "Failed") none none none none now).rows,
       [Event.checkedSuccess jid])
    else (rows, [Event.checkedSuccess jid])
  | .error _ =>
    let js := env.check_success jid
    if pyTruthy js && js != some "Failed" then
      match js with
      | some v =>
        ((update_jobs rows [jid] (some v) none none none none now).rows,
         [Event.checkedSuccess jid, Event.postprocessed jid])
      | none => (rows, [Event.checkedSuccess jid])
    else if js == some "Failed" then
      ((update_jobs rows [jid] (some "Failed") none none none none now).rows,
       [Event.checkedSuccess jid])
    else (rows, [Event.checkedSuccess jid])

/-- The step-5 loop of run.py: await and reconcile every retained future in
submission order. -/
def reconcileAll (env : RunEnv) (rows : List Row) (futs : List Nat)
    (now : Nat) : List Row × List Event :=
  match futs with
  | [] => (rows, [])
  | j :: rest =>
    let p1 := reconcile_one env rows j now
    let p2 := reconcileAll env p1.1 rest now
    (p2.1, p1.2 ++ p2.2)

/-- Result of one run pass: the table contents, the observable actions, and
the exception that escaped the pass, if any. -/
structure RunResult where
  rows : List Row
  events : List Event
  escaped : Option String
deriving Repr

/-- Steps 2 to 5 of run.py run(): fetch and filter runnable jobs, group them
by application, process every group (submission), then await and reconcile
every retained future. An exception raised during submission escapes the
pass: the database keeps the updates made before the raise and no future is
awaited. -/
def runPass (env : RunEnv) (rows : List Row)
    (appFilter tagFilter : Option (List String)) (now : Nat) : RunResult :=
  let jobs := fetchFiltered rows appFilter tagFilter
  if jobs.isEmpty then ⟨rows, [], none⟩
  else
    match processGroups env ⟨rows, [], []⟩ (groupKeys jobs) jobs now with
    | .error es => ⟨es.2.rows, es.2.events, some es.1⟩
    | .ok st =>
      let p := reconcileAll env st.rows st.futures now
      ⟨p.1, st.events ++ p.2, none⟩

/-- Concrete store for the query example: two jobs with distinct ids. -/
def c7rows : List Row :=
  [⟨1, "lammps", "/w/a", "Done", 1, none, some "t1", 0⟩,
   ⟨2, "vasp", "/w/b", "Ready", 2, none, none, 0⟩]

/-- Concrete store for the duplicate-path example. -/
def c8rows : List Row :=
  [⟨1, "lammps", "/w/dup", "Ready", 1, none, none, 0⟩]

/-- Concrete store for the reconciliation examples: one submitted job. -/
def c1rows : List Row :=
  [⟨1, "lammps", "/w/a", "Submitted", 4, none, none, 0⟩]

/-- Environment of the exception-path reconciliation example: awaiting the
future raises, but check_success reports Done (a valid completion marker was
found in the job directory). -/
def c1env : RunEnv :=
  { preprocess := fun _ _ => .ok ()
    futureResult := fun _ => .error "AppFailure: bash exited with code 137"
    check_success := fun _ => some "Done"
    configOk := fun _ => true
    scheduler := "PBS"
    pbsJobId := "12345.polaris" }

/-- Environment of the clean-completion example: the future resolves but
check_success finds no completion marker and reports Failed. -/
def c5env : RunEnv :=
  { preprocess := fun _ _ => .ok ()
    futureResult := fun _ => .ok ()
    check_success := fun _ => some "Failed"
    configOk := fun _ => true
    scheduler := "PBS"
    pbsJobId := "12345.polaris" }

/-- Concrete store for the preprocess-failure example: two lammps jobs. -/
def c3rows : List Row :=
  [⟨1, "lammps", "/w/a", "Ready", 1, none, none, 0⟩,
   ⟨2, "lammps", "/w/b", "Ready", 2, none, none, 0⟩]

/-- Environment of the preprocess-failure example: preprocess raises for
job 1 and succeeds for every other job. -/
def c3env : RunEnv :=
  { preprocess := fun _ j =>
      if j == 1 then .error "RuntimeError: preprocess boom" else .ok ()
    futureResult := fun _ => .ok ()
    check_success := fun _ => some "Done"
    configOk := fun _ => true
    scheduler := "PBS"
    pbsJobId := "local_1" }

/-- Concrete store for the unregistered-application example: job 1 uses an
application absent from APP_FACTORY, job 2 a registered one. -/
def c4rows : List Row :=
  [⟨1, "nosuchapp", "/w/a", "Ready", 1, none, none, 0⟩,
   ⟨2, "lammps", "/w/b", "Ready", 4, none, none, 0⟩]

/-- Environment of the unregistered-application example: every plugin call
succeeds, the scheduler is PBS as in both shipped system configs. -/
def c4env : RunEnv :=
  { preprocess := fun _ _ => .ok ()
    futureResult := fun _ => .ok ()
    check_success := fun _ => some "Done"
    configOk := fun _ => true
    scheduler := "PBS"
    pbsJobId := "local_1" }

/-- find? commutes with a map that does not change the predicate value. -/
theorem find_map_pres {f : Row → Row} {p : Row → Bool}
    (hf : ∀ r, p (f r) = p r) : ∀ l : List Row,
    (l.map f).find? p = (l.find? p).map f := by
  intro l
  induction l with
  | nil => rfl
  | cons a t ih =>
    rw [List.map_cons]
    by_cases h : p a = true
    · rw [List.find?_cons_of_pos _ (by rw [hf]; exact h),
        List.find?_cons_of_pos _ h]
      rfl
    · rw [List.find?_cons_of_neg _ (by rw [hf]; exact h),
        List.find?_cons_of_neg _ h, ih]

/-- updRow never changes the job_id column. -/
theorem updRow_pres_id (ids : List Nat) (st sj ap tg : Option String)
    (ng : Option Int) (now : Nat) (r : Row) :
    (updRow ids st sj ap tg ng now r).job_id = r.job_id := by
  unfold updRow
  split <;> rfl

/-- A status-only update of one present job id leaves that job with the
capitalized status value. -/
theorem jobStatus_update_single (rows : List Row) (jid : Nat) (s : String)
    (now : Nat) (hmem : ∃ r ∈ rows, r.job_id = jid) :
    jobStatus (update_jobs rows [jid] (some s) none none none none now).rows
      jid = some (pyCapitalize s) := by
  have hrows : (update_jobs rows [jid] (some s) none none none none now).rows
      = rows.map (updRow [jid] (some s) none none none none now) := by
    simp [update_jobs]
  have hpres : ∀ r : Row,
      ((updRow [jid] (some s) none none none none now r).job_id == jid)
        = (r.job_id == jid) := by
    intro r
    rw [updRow_pres_id]
  obtain ⟨r0, hr0, hid⟩ := hmem
  have hsome : (rows.find? (fun r => r.job_id == jid)).isSome := by
    rw [List.find?_isSome]
    exact ⟨r0, hr0, by simp [hid]⟩
  obtain ⟨r1, hr1⟩ := Option.isSome_iff_exists.mp hsome
  have hp1 := List.find?_some hr1
  have hid1 : r1.job_id = jid := by simpa using hp1
  rw [jobStatus, hrows, find_map_pres hpres, hr1]
  simp [updRow, hid1]

/-- Unfolding of the status condition of get_jobs. -/
theorem statusCond_iff (st : Option String) (r : Row) :
    statusCond st r = true ↔
      ∀ s, st = some s → s ≠ "" → r.status = pyCapitalize s := by
  rcases st with _ | s
  · simp [statusCond]
  · by_cases h : s = ""
    · subst h; simp [statusCond]
    · simp [statusCond, h]

/-- Unfolding of the app condition of get_jobs. -/
theorem appCond_iff (ap : Option String) (r : Row) :
    appCond ap r = true ↔ ∀ a, ap = some a → a ≠ "" → r.app = a := by
  rcases ap with _ | a
  · simp [appCond]
  · by_cases h : a = ""
    · subst h; simp [appCond]
    · simp [appCond, h]

/-- Unfolding of the tag condition of get_jobs. -/
theorem tagCond_iff (tg : Option String) (r : Row) :
    tagCond tg r = true ↔ ∀ t, tg = some t → t ≠ "" → r.tag = some t := by
  rcases tg with _ | t
  · simp [tagCond]
  · by_cases h : t = ""
    · subst h; simp [tagCond]
    · rcases htag : r.tag with _ | rt
      · simp [tagCond, h, htag]
      · simp [tagCond, h, htag]

/-- Claim C10: calling update_jobs with an empty job id list returns 0,
performs no database access at all, and leaves every row unchanged, whatever
combination of field values is supplied. -/
theorem c10_update_jobs_empty_ids (rows : List Row)
    (status sched_job_id app tag : Option String) (ngpus : Option Int)
    (now : Nat) :
    update_jobs rows [] status sched_job_id app tag ngpus now =
      ⟨.ok 0, rows, false⟩ := by
  simp [update_jobs]

/-- Claim C9: calling update_jobs on a non-empty id list with no recognized
field supplied returns an affected count of 0, performs no database access,
and leaves every row (timestamps included) unchanged. -/
theorem c9_update_jobs_no_fields (rows : List Row) (ids : List Nat)
    (now : Nat) (h : ids ≠ []) :
    update_jobs rows ids none none none none none now =
      ⟨.ok 0, rows, false⟩ := by
  have hne : ids.isEmpty = false := by
    cases ids with
    | nil => exact absurd rfl h
    | cons a t => rfl
  simp [update_jobs, hne]

/-- Witness for claim C9 at a concrete input. -/
theorem c9_update_jobs_no_fields_witness :
    ([1] ≠ ([] : List Nat)) ∧
    update_jobs c8rows [1] none none none none none 5 =
      ⟨.ok 0, c8rows, false⟩ :=
  ⟨by decide, c9_update_jobs_no_fields c8rows [1] 5 (by decide)⟩

/-- Claim C2 (refuted, code bug at database.py line 189): the update the
orchestrator issues at run.py line 158, which supplies only sched_job_id for
a matching job id, raises AttributeError instead of recording the identifier;
and even when a status is supplied alongside, the stored sched_job_id is the
capitalized status value, not the supplied identifier. -/
theorem c2_sched_job_id_update_bug :
    (update_jobs [⟨1, "lammps", "/w/j1", "Submitted", 4, none, none, 0⟩] [1]
        none (some "local_1700000000") none none none 1).result =
      .error "AttributeError: NoneType object has no attribute capitalize" ∧
    (update_jobs [⟨1, "lammps", "/w/j1", "Submitted", 4, none, none, 0⟩] [1]
        (some "Submitted") (some "local_1700000000") none none none 1).rows =
      [⟨1, "lammps", "/w/j1", "Submitted", 4, some "Submitted", none, 1⟩] :=
  ⟨rfl, rfl⟩

/-- Claim C8: adding a job whose working directory path is already present is
rejected with IntegrityError and leaves the store unchanged. -/
theorem c8_duplicate_path_rejected (rows : List Row) (p a status : String)
    (n : Int) (tg : Option String) (now : Nat)
    (h : ∃ r ∈ rows, r.path = p) :
    (add_job rows p a n tg status now).result =
      .error "sqlite3.IntegrityError: UNIQUE constraint failed: jobs.path" ∧
    (add_job rows p a n tg status now).rows = rows := by
  obtain ⟨r0, hr0, hp0⟩ := h
  have hc : rows.any (fun r => r.path == p) = true := by
    rw [List.any_eq_true]
    exact ⟨r0, hr0, by simp [hp0]⟩
  constructor <;> simp [add_job, hc]

/-- Witness for claim C8 at a concrete input. -/
theorem c8_duplicate_path_rejected_witness :
    (∃ r ∈ c8rows, r.path = "/w/dup") ∧
    ((add_job c8rows "/w/dup" "vasp" 2 none "Ready" 9).result =
        .error "sqlite3.IntegrityError: UNIQUE constraint failed: jobs.path" ∧
      (add_job c8rows "/w/dup" "vasp" 2 none "Ready" 9).rows = c8rows) :=
  ⟨by decide, c8_duplicate_path_rejected c8rows "/w/dup" "vasp" "Ready" 2
    none 9 (by decide)⟩

/-- Claim C7: for any store state with distinct job ids and any combination of
optional status, application and tag filters, get_jobs returns exactly the
jobs satisfying all supplied filters (AND-combined: application equal to the
given application, tag equal to the given tag, status equal to the supplied
status normalized to canonical capitalization), ordered ascending by id, each
qualifying job appearing exactly once. -/
theorem c7_get_jobs_query (rows : List Row) (st ap tg : Option String)
    (hids : (rows.map Row.job_id).Nodup) :
    (∀ r : Row, r ∈ get_jobs rows st ap tg ↔
        r ∈ rows ∧
        (∀ s, st = some s → s ≠ "" → r.status = pyCapitalize s) ∧
        (∀ a, ap = some a → a ≠ "" → r.app = a) ∧
        (∀ t, tg = some t → t ≠ "" → r.tag = some t)) ∧
    (get_jobs rows st ap tg).Sorted rowLe ∧
    ((get_jobs rows st ap tg).map Row.job_id).Nodup := by
  refine ⟨?_, ?_, ?_⟩
  · intro r
    rw [get_jobs, (List.perm_insertionSort rowLe _).mem_iff, List.mem_filter,
      jobMatches, Bool.and_eq_true, Bool.and_eq_true, statusCond_iff,
      appCond_iff, tagCond_iff]
    tauto
  · exact List.sorted_insertionSort rowLe _
  · have hsub : ((rows.filter (jobMatches st ap tg)).map Row.job_id).Sublist
        (rows.map Row.job_id) :=
      (List.filter_sublist rows).map Row.job_id
    have hnd := hids.sublist hsub
    rw [get_jobs]
    exact ((List.perm_insertionSort rowLe
      (rows.filter (jobMatches st ap tg))).map Row.job_id).nodup_iff.mpr hnd

/-- Witness for claim C7 at a concrete input. -/
theorem c7_get_jobs_query_witness :
    (c7rows.map Row.job_id).Nodup ∧
    ((∀ r : Row, r ∈ get_jobs c7rows (some "ready") none (some "t1") ↔
        r ∈ c7rows ∧
        (∀ s, (some "ready" : Option String) = some s → s ≠ "" →
          r.status = pyCapitalize s) ∧
        (∀ a, (none : Option String) = some a → a ≠ "" → r.app = a) ∧
        (∀ t, (some "t1" : Option String) = some t → t ≠ "" →
          r.tag = some t)) ∧
      (get_jobs c7rows (some "ready") none (some "t1")).Sorted rowLe ∧
      ((get_jobs c7rows (some "ready") none (some "t1")).map
        Row.job_id).Nodup) :=
  ⟨by decide, c7_get_jobs_query c7rows (some "ready") none (some "t1")
    (by decide)⟩

/-- Claim C1: when awaiting a submitted job's future raises, the run pass
still calls check_success; when check_success returns a truthy non-Failed
canonical status, that status is the job's final persisted status (so the job
is not marked Failed) and postprocess runs exactly once for it. -/
theorem c1_exception_path_reconciliation (env : RunEnv) (rows : List Row)
    (jid now : Nat) (e s : String)
    (hfut : env.futureResult jid = .error e)
    (hchk : env.check_success jid = some s)
    (hnf : s ≠ "Failed") (hne : s ≠ "") (hcanon : pyCapitalize s = s)
    (hmem : ∃ r ∈ rows, r.job_id = jid) :
    jobStatus (reconcile_one env rows jid now).1 jid = some s ∧
    jobStatus (reconcile_one env rows jid now).1 jid ≠ some "Failed" ∧
    (reconcile_one env rows jid now).2.count (Event.checkedSuccess jid) = 1 ∧
    (reconcile_one env rows jid now).2.count (Event.postprocessed jid) = 1 := by
  have hcond : (pyTruthy (env.check_success jid) &&
      (env.check_success jid != some "Failed")) = true := by
    rw [hchk]
    simp [pyTruthy, hne, hnf]
  have hres : reconcile_one env rows jid now =
      ((update_jobs rows [jid] (some s) none none none none now).rows,
       [Event.checkedSuccess jid, Event.postprocessed jid]) := by
    rw [reconcile_one, hfut]
    rw [hchk] at hcond
    simp [hchk, hcond]
  rw [hres]
  have hstat := jobStatus_update_single rows jid s now hmem
  rw [hcanon] at hstat
  refine ⟨hstat, ?_, ?_, ?_⟩
  · rw [hstat]
    simp [hnf]
  · simp [List.count_cons]
  · simp [List.count_cons]

/-- Witness for claim C1 at a concrete input. -/
theorem c1_exception_path_reconciliation_witness :
    c1env.futureResult 1 = .error "AppFailure: bash exited with code 137" ∧
    c1env.check_success 1 = some "Done" ∧
    ("Done" ≠ "Failed") ∧ ("Done" ≠ "") ∧ pyCapitalize "Done" = "Done" ∧
    (∃ r ∈ c1rows, r.job_id = 1) ∧
    (jobStatus (reconcile_one c1env c1rows 1 3).1 1 = some "Done" ∧
      jobStatus (reconcile_one c1env c1rows 1 3).1 1 ≠ some "Failed" ∧
      (reconcile_one c1env c1rows 1 3).2.count (Event.checkedSuccess 1) = 1 ∧
      (reconcile_one c1env c1rows 1 3).2.count (Event.postprocessed 1) = 1) :=
  ⟨rfl, rfl, by decide, by decide, rfl, by decide,
    c1_exception_path_reconciliation c1env c1rows 1 3
      "AppFailure: bash exited with code 137" "Done" rfl rfl (by decide)
      (by decide) rfl (by decide)⟩

/-- Claim C5: when a submitted job's future resolves cleanly but
check_success returns Failed, the job's final persisted status is Failed and
postprocess never runs for it. -/
theorem c5_clean_future_check_failed (env : RunEnv) (rows : List Row)
    (jid now : Nat)
    (hfut : env.futureResult jid = .ok ())
    (hchk : env.check_success jid = some "Failed")
    (hmem : ∃ r ∈ rows, r.job_id = jid) :
    jobStatus (reconcile_one env rows jid now).1 jid = some "Failed" ∧
    (reconcile_one env rows jid now).2.count (Event.postprocessed jid) = 0 := by
  have hres : reconcile_one env rows jid now =
      ((update_jobs rows [jid] (some "Failed") none none none none now).rows,
       [Event.checkedSuccess jid]) := by
    rw [reconcile_one, hfut]
    simp [hchk, pyTruthy]
  rw [hres]
  have hstat := jobStatus_update_single rows jid "Failed" now hmem
  have hcap : pyCapitalize "Failed" = "Failed" := rfl
  rw [hcap] at hstat
  refine ⟨hstat, ?_⟩
  simp [List.count_cons]

/-- Witness for claim C5 at a concrete input. -/
theorem c5_clean_future_check_failed_witness :
    c5env.futureResult 1 = .ok () ∧
    c5env.check_success 1 = some "Failed" ∧
    (∃ r ∈ c1rows, r.job_id = 1) ∧
    (jobStatus (reconcile_one c5env c1rows 1 3).1 1 = some "Failed" ∧
      (reconcile_one c5env c1rows 1 3).2.count (Event.postprocessed 1) = 0) :=
  ⟨rfl, rfl, by decide,
    c5_clean_future_check_failed c5env c1rows 1 3 rfl rfl (by decide)⟩

/-- Folding groupStep only ever appends to the accumulator. -/
theorem groupKeys_aux (l : List Row) :
    ∀ acc : List String, ∃ extra, l.foldl groupStep acc = acc ++ extra := by
  induction l with
  | nil => exact fun acc => ⟨[], by simp⟩
  | cons a t ih =>
    intro acc
    rw [List.foldl_cons]
    by_cases h : acc.contains a.app = true
    · obtain ⟨e, he⟩ := ih acc
      refine ⟨e, ?_⟩
      rw [show groupStep acc a = acc by rw [groupStep, if_pos h]]
      exact he
    · obtain ⟨e, he⟩ := ih (acc ++ [a.app])
      refine ⟨a.app :: e, ?_⟩
      rw [show groupStep acc a = acc ++ [a.app] by rw [groupStep, if_neg h]]
      rw [he, List.append_assoc]
      rfl

/-- The first group key is the application of the first fetched job. -/
theorem groupKeys_cons (j : Row) (rest : List Row) :
    ∃ ks, groupKeys (j :: rest) = j.app :: ks := by
  obtain ⟨e, he⟩ := groupKeys_aux rest [j.app]
  refine ⟨e, ?_⟩
  rw [groupKeys, List.foldl_cons,
    show groupStep [] j = [j.app] from rfl, he]
  rfl

/-- Claim C3 (amended): when the plugin preprocess call of the first runnable
job raises, that job is not updated to Submitted and does not proceed to
submission, but the exception escapes the run pass: the store is left exactly
as it was and no job at all is submitted or executed in that pass. -/
theorem c3_preprocess_exception_escapes (env : RunEnv) (rows : List Row)
    (af tf : Option (List String)) (now : Nat) (e : String) (j : Row)
    (rest : List Row)
    (hfetch : fetchFiltered rows af tf = j :: rest)
    (hreg : registeredApps.contains j.app = true)
    (hcfg : env.configOk j.app = true)
    (hpre : env.preprocess j.app j.job_id = .error e) :
    runPass env rows af tf now = ⟨rows, [], some e⟩ := by
  obtain ⟨ks, hks⟩ := groupKeys_cons j rest
  have hclass : get_app_class j.app = .ok () := by
    rw [get_app_class, if_pos hreg]
  have hgroup : groupOf (j :: rest) j.app =
      j :: rest.filter (fun x => x.app == j.app) := by
    rw [groupOf, List.filter_cons]
    simp
  have hsub1 : submit_one env ⟨rows, [], []⟩ j now =
      .error (e, ⟨rows, [], []⟩) := by
    rw [submit_one, hpre]
  have hsubg : submitGroup env ⟨rows, [], []⟩ (groupOf (j :: rest) j.app) now
      = .error (e, ⟨rows, [], []⟩) := by
    rw [hgroup, submitGroup, hsub1]
  have hpg : processGroup env ⟨rows, [], []⟩ j.app
      (groupOf (j :: rest) j.app) now = .error (e, ⟨rows, [], []⟩) := by
    rw [processGroup, hclass, hcfg]
    simpa using hsubg
  have hpgs : processGroups env ⟨rows, [], []⟩ (j.app :: ks) (j :: rest) now
      = .error (e, ⟨rows, [], []⟩) := by
    rw [processGroups, hpg]
  rw [runPass, hfetch]
  simp only [List.isEmpty_cons, Bool.false_eq_true, if_false, hks, hpgs]

/-- Witness for the amended claim C3 at a concrete input. -/
theorem c3_preprocess_exception_escapes_witness :
    fetchFiltered c3rows none none =
      (⟨1, "lammps", "/w/a", "Ready", 1, none, none, 0⟩ : Row) ::
        [⟨2, "lammps", "/w/b", "Ready", 2, none, none, 0⟩] ∧
    registeredApps.contains "lammps" = true ∧
    c3env.configOk "lammps" = true ∧
    c3env.preprocess "lammps" 1 = .error "RuntimeError: preprocess boom" ∧
    runPass c3env c3rows none none 7 =
      ⟨c3rows, [], some "RuntimeError: preprocess boom"⟩ :=
  ⟨by decide, rfl, rfl, rfl,
    c3_preprocess_exception_escapes c3env c3rows none none 7
      "RuntimeError: preprocess boom"
      ⟨1, "lammps", "/w/a", "Ready", 1, none, none, 0⟩
      [⟨2, "lammps", "/w/b", "Ready", 2, none, none, 0⟩]
      (by decide) rfl rfl rfl⟩

/-- Claim C3 (counterexample to the claim as stated): with two lammps jobs
where job 1's preprocess raises, the exception escapes the run pass, job 2 is
never submitted, and the store is left untouched — refuting that the
exception stays inside the pass and that sibling jobs still proceed. -/
theorem c3_preprocess_exception_counterexample :
    runPass c3env c3rows none none 7 =
      ⟨c3rows, [], some "RuntimeError: preprocess boom"⟩ ∧
    (runPass c3env c3rows none none 7).escaped ≠ none ∧
    (runPass c3env c3rows none none 7).events.count (Event.submitted 2) = 0 := by
  refine ⟨rfl, ?_, ?_⟩ <;> decide

/-- Claim C4 (refuted, code bug): with job 1 of an unregistered application
and job 2 of the registered lammps application under the PBS scheduler (both
shipped system configs use PBS), resolving the unregistered application does
raise the not-registered ValueError carrying the valid names and job 1 is
marked Failed, but job 2's submission then raises AttributeError inside the
sched_job_id update (database.py line 189); the exception escapes the pass
and job 2 is left in Submitted, never reaching a terminal status. -/
theorem c4_unregistered_group_pbs_crash :
    get_app_class "nosuchapp" =
      .error ("ValueError: Unknown application: nosuchapp. " ++
        "Available applications are: lammps, vasp, python") ∧
    runPass c4env c4rows none none 7 =
      ⟨[⟨1, "nosuchapp", "/w/a", "Failed", 1, none, none, 7⟩,
        ⟨2, "lammps", "/w/b", "Submitted", 4, none, none, 7⟩],
       [Event.preprocessed 2, Event.submitted 2],
       some "AttributeError: NoneType object has no attribute capitalize"⟩ :=
  ⟨rfl, rfl⟩

/-- Claim C6 (refuted, code bug): the add command's database.add_job call
passes the keywords in_file and mpi_opts, which database.add_job does not
accept, so the call raises TypeError (only sqlite3.IntegrityError is caught)
before any row is inserted: adding a job with accelerator count 4 crashes and
no round trip is possible. -/
theorem c6_add_command_typeerror :
    kwargsBind add_job_param_names add_command_kwargs = false ∧
    add_command_one [] "/scratch/job1" "lammps" 4 none "Ready" 3 =
      ⟨.error "TypeError: add_job() got an unexpected keyword argument in_file",
       [], false⟩ :=
  ⟨rfl, rfl⟩

end Parslbox
